import Mathlib

/-!
Shallow embedding of the HerCare backend's link-based access-control core
(src/main.py, src/models.py) and proofs about the behaviour of its
operations: per-category resource accessors, permission updates, link
creation, and the shadow-identity migration (`link_records`).

Modelling conventions:
* each database table is a `List` of row structures carrying the columns
  the access-control logic reads (other columns are payload and omitted);
* SQLAlchemy `query(...).filter(p).first()` becomes `List.find?`,
  `query(...).filter(p).update({...})` becomes a `List.map` that rewrites
  matching rows, mutating the object returned by `.first()` becomes
  `updateFirst`, and `session.delete` of a `.first()` result becomes
  `removeFirst`;
* authentication is the boundary collaborator: every endpoint receives the
  already-resolved principal id (`payload["sub"]`) where the source reads it;
* JSON permission maps are association lists from category name to Bool;
  Python's `(link.permissions or {})` (None and the empty dict coincide) is
  `permGet` over an `Option`;
* fresh `uuid4` values produced inside an endpoint are passed as explicit
  parameters.
-/

namespace HerCare

/-- Permission map stored on a link: JSON object of category name to Bool. -/
abbrev Permissions := List (String × Bool)

/-- `users` table row (models.py `User`); shadow identities carry neither
email nor password hash. -/
structure User where
  id : Nat
  name : String
  email : Option String
  password_hash : Option String
  age : Nat
  role : String
deriving Repr, DecidableEq

/-- `doctor_profiles` table row (models.py `DoctorProfile`). -/
structure DoctorProfile where
  id : Nat
  user_id : Nat
  specialization : Option String
  invite_code : Option String
deriving Repr, DecidableEq

/-- `doctor_patient_links` table row (models.py `DoctorPatientLink`).
`permissions` is a nullable JSON column, `share_code` a nullable unique
column. The table declares no unique constraint on the
(doctor_id, patient_id) pair. -/
structure DoctorPatientLink where
  id : Nat
  doctor_id : Nat
  patient_id : Nat
  permissions : Option Permissions
  share_code : Option String
deriving Repr, DecidableEq

/-- `health_logs` table row (owner column `user_id`). -/
structure HealthLog where
  id : Nat
  user_id : Nat
  notes : String
deriving Repr, DecidableEq

/-- `medications` table row (owner column `patient_id`); carries the
soft-delete `active` flag. -/
structure Medication where
  id : Nat
  patient_id : Nat
  name : String
  active : Bool
deriving Repr, DecidableEq

/-- `medical_reports` table row (owner column `patient_id`). -/
structure MedicalReport where
  id : Nat
  patient_id : Nat
  title : String
deriving Repr, DecidableEq

/-- `diet_plans` table row (owner column `patient_id`). -/
structure DietPlan where
  id : Nat
  patient_id : Nat
  meal_type : String
deriving Repr, DecidableEq

/-- `medical_histories` table row (owner column `patient_id`). -/
structure MedicalHistory where
  id : Nat
  patient_id : Nat
  allergies : Option String
deriving Repr, DecidableEq

/-- `consultations` table row (owner column `patient_id`). -/
structure Consultation where
  id : Nat
  doctor_id : Nat
  patient_id : Nat
  diagnosis : Option String
deriving Repr, DecidableEq

/-- The relational store: one list per table the core touches. -/
structure DB where
  users : List User
  doctor_profiles : List DoctorProfile
  links : List DoctorPatientLink
  health_logs : List HealthLog
  medications : List Medication
  reports : List MedicalReport
  diet_plans : List DietPlan
  medical_histories : List MedicalHistory
  consultations : List Consultation
deriving Repr, DecidableEq

/-- An `HTTPException(status_code, detail)` surfaced to the client. -/
structure HTTPError where
  status : Nat
  detail : String
deriving Repr, DecidableEq

/-- Replace the first element satisfying `p` by its image under `f`
(mutation of the row object returned by `.first()`). -/
def updateFirst (p : α → Bool) (f : α → α) : List α → List α
  | [] => []
  | x :: xs => if p x then f x :: xs else x :: updateFirst p f xs

/-- Remove the first element satisfying `p` (session `delete` of the row
returned by `.first()`; a no-op when nothing matches, as in the source's
`if shadow_user:` guard). -/
def removeFirst (p : α → Bool) : List α → List α
  | [] => []
  | x :: xs => if p x then xs else x :: removeFirst p xs

/-- Python's `(perms or {}).get(key, dflt)` where `perms` is the nullable
JSON column: `None` and `{}` behave identically. -/
def permGet (perms : Option Permissions) (key : String) (dflt : Bool) : Bool :=
  match perms with
  | none => dflt
  | some ps =>
    match ps.lookup key with
    | some b => b
    | none => dflt

/-- GET `/health-logs` (main.py `get_health_logs`): owner always allowed;
otherwise require a (doctor → patient) link and the `health_logs`
permission, whose absent-key default is `True`. -/
def get_health_logs (requesting_user_id target_user_id : Nat) (db : DB) :
    Except HTTPError (List HealthLog) :=
  let logs := db.health_logs.filter (fun l => l.user_id == target_user_id)
  if requesting_user_id = target_user_id then .ok logs
  else
    match db.links.find? (fun l =>
        l.doctor_id == requesting_user_id && l.patient_id == target_user_id) with
    | none => .error ⟨403, "Not authorized to view these logs"⟩
    | some link =>
      if permGet link.permissions "health_logs" true then .ok logs
      else .error ⟨403, "Permission denied by patient"⟩

/-- GET `/medications/{patient_id}` (main.py `get_medications`): same gate
with key `"medications"`; the listing filters to `active == True`. -/
def get_medications (req_id pat_id : Nat) (db : DB) :
    Except HTTPError (List Medication) :=
  let meds := db.medications.filter (fun m => m.patient_id == pat_id && m.active)
  if req_id = pat_id then .ok meds
  else
    match db.links.find? (fun l =>
        l.doctor_id == req_id && l.patient_id == pat_id) with
    | none => .error ⟨403, "Not authorized"⟩
    | some link =>
      if permGet link.permissions "medications" true then .ok meds
      else .error ⟨403, "Permission denied"⟩

/-- GET `/reports/{patient_id}` (main.py `get_reports`): the source guards
with two nested `if not (...).get("reports", _)` tests (a `False`-default
test whose body re-tests with a `True` default), reproduced literally. -/
def get_reports (req_id pat_id : Nat) (db : DB) :
    Except HTTPError (List MedicalReport) :=
  let reports := db.reports.filter (fun r => r.patient_id == pat_id)
  if req_id = pat_id then .ok reports
  else
    match db.links.find? (fun l =>
        l.doctor_id == req_id && l.patient_id == pat_id) with
    | none => .error ⟨403, "Not authorized"⟩
    | some link =>
      if !(permGet link.permissions "reports" false) then
        if !(permGet link.permissions "reports" true) then
          .error ⟨403, "Permission denied"⟩
        else .ok reports
      else .ok reports

/-- GET `/diet-plans/{patient_id}` (main.py `get_diet_plans`): after token
verification the source queries by owner directly — no requester identity,
no link lookup, no permission test. -/
def get_diet_plans (patient_id : Nat) (db : DB) :
    Except HTTPError (List DietPlan) :=
  .ok (db.diet_plans.filter (fun p => p.patient_id == patient_id))

/-- GET `/consultations/{patient_id}` (main.py `get_consultations`): token
verification only, then a query by owner — no link or permission check. -/
def get_consultations (patient_id : Nat) (db : DB) :
    Except HTTPError (List Consultation) :=
  .ok (db.consultations.filter (fun c => c.patient_id == patient_id))

/-- GET `/medical-history/{patient_id}` (main.py `get_medical_history`):
token verification only; returns the row or `{}`. -/
def get_medical_history (patient_id : Nat) (db : DB) :
    Except HTTPError (Option MedicalHistory) :=
  .ok (db.medical_histories.find? (fun h => h.patient_id == patient_id))

/-- PUT `/doctor/permissions` (main.py `update_permissions_api`): looks up
the link keyed by (token subject as patient, body doctor_id); 404 when none;
otherwise replaces that link's whole permissions map. -/
def update_permissions_api (requester doctor_id : Nat) (permissions : Permissions)
    (db : DB) : Except HTTPError (String × DB) :=
  match db.links.find? (fun l =>
      l.patient_id == requester && l.doctor_id == doctor_id) with
  | none => .error ⟨404, "Doctor not linked"⟩
  | some _ =>
    .ok ("Permissions updated",
      { db with links := (updateFirst
          (fun l => l.patient_id == requester && l.doctor_id == doctor_id)
          (fun l => { l with permissions := some permissions }) db.links) })

/-- POST `/link-doctor` (main.py `link_doctor`): resolves the doctor by
invite code, rejects a duplicate (doctor, patient) pair at application
level, then inserts a link (permissions column default `{}`, no share
code). -/
def link_doctor (patient_id : Nat) (invite_code : String) (fresh_link_id : Nat)
    (db : DB) : Except HTTPError (String × DB) :=
  match db.doctor_profiles.find? (fun p => p.invite_code == some invite_code) with
  | none => .error ⟨404, "Invalid invite code"⟩
  | some doctor_profile =>
    match db.links.find? (fun l =>
        l.doctor_id == doctor_profile.user_id && l.patient_id == patient_id) with
    | some _ => .error ⟨400, "Already linked"⟩
    | none =>
      .ok ("Linked successfully",
        { db with links := db.links ++
            [⟨fresh_link_id, doctor_profile.user_id, patient_id, some [], none⟩] })

/-- Response payload of POST `/register-patient`. -/
inductive RegisterOutcome
  | existingLinked
  | registered (patient_id : Nat) (temp_password : Option String) (share_code : String)
deriving Repr, DecidableEq

/-- POST `/register-patient` (main.py `register_patient_for_doctor`).
Doctor-only. With an email of an existing user, the source inserts a link
for the pair inside `try: commit / except: rollback`; the schema
(models.py, create_tables.py, upgrade_db.py) declares no unique constraint
on (doctor_id, patient_id) and the inserted link's `share_code` is NULL, so
the commit cannot be rejected by the store and the insert always succeeds.
With a fresh email it creates a full user; with no email a shadow user
(email and password NULL); either way it then inserts a link carrying a
fresh share code. -/
def register_patient_for_doctor (requester : Nat) (name : String)
    (email : Option String) (age : Nat) (fresh_user_id fresh_link_id : Nat)
    (fresh_share_code : String) (db : DB) :
    Except HTTPError (RegisterOutcome × DB) :=
  match db.users.find? (fun u => u.id == requester && u.role == "doctor") with
  | none => .error ⟨403, "Only doctors can register patients"⟩
  | some doctor =>
    match email with
    | some e =>
      match db.users.find? (fun u => u.email == some e) with
      | some existing_user =>
        .ok (.existingLinked,
          { db with links := db.links ++
              [⟨fresh_link_id, doctor.id, existing_user.id, some [], none⟩] })
      | none =>
        let new_user : User :=
          ⟨fresh_user_id, name, some e, some "hash(HerCareUser2026)", age, "patient"⟩
        .ok (.registered fresh_user_id (some "HerCareUser2026") fresh_share_code,
          { db with
            users := db.users ++ [new_user],
            links := db.links ++
              [⟨fresh_link_id, doctor.id, fresh_user_id, some [], some fresh_share_code⟩] })
    | none =>
      let new_user : User := ⟨fresh_user_id, name, none, none, age, "patient"⟩
      .ok (.registered fresh_user_id none fresh_share_code,
        { db with
          users := db.users ++ [new_user],
          links := db.links ++
            [⟨fresh_link_id, doctor.id, fresh_user_id, some [], some fresh_share_code⟩] })

/-- Whether any row of the store still references user `uid` through one of
the modelled foreign-key columns into `users.id` (models.py declares them
without ON DELETE cascade: doctor_profiles.user_id, links.doctor_id and
patient_id, health_logs.user_id, medications.patient_id,
medical_reports.patient_id, diet_plans.patient_id,
medical_histories.patient_id, consultations.doctor_id and patient_id).
Deleting a user the store still references violates these constraints. -/
def referencesUser (uid : Nat) (db : DB) : Bool :=
  db.doctor_profiles.any (fun x => x.user_id == uid)
  || db.links.any (fun l => l.doctor_id == uid || l.patient_id == uid)
  || db.health_logs.any (fun l => l.user_id == uid)
  || db.medications.any (fun m => m.patient_id == uid)
  || db.reports.any (fun r => r.patient_id == uid)
  || db.diet_plans.any (fun p => p.patient_id == uid)
  || db.medical_histories.any (fun h => h.patient_id == uid)
  || db.consultations.any (fun c => c.doctor_id == uid || c.patient_id == uid)

/-- POST `/patients/link` (main.py `link_records`): the shadow-identity
migration. Resolves the link by share code (404 "Invalid code" if none);
no-op success when the link already points at the claimant; otherwise bulk
`UPDATE` of owners in exactly the four tables the source touches
(consultations, medical_histories, health_logs, medical_reports), then the
link is repointed and its code cleared, the shadow user row deleted, and
the whole unit committed. The commit is where the store's foreign keys to
`users.id` (non-nullable, no cascade — e.g. medications.patient_id at
models.py:81, diet_plans.patient_id at models.py:97) are enforced: if the
claimant has no user row, or the deleted shadow row is still referenced by
any remaining row (un-migrated medications or diet plans, another link,
...), Postgres raises IntegrityError, the transaction rolls back leaving
the store untouched, and the boundary surfaces a 500. -/
def link_records (share_code : String) (real_user_id : Nat) (db : DB) :
    Except HTTPError (String × DB) :=
  match db.links.find? (fun l => l.share_code == some share_code) with
  | none => .error ⟨404, "Invalid code"⟩
  | some link =>
    let shadow_user_id := link.patient_id
    if shadow_user_id = real_user_id then .ok ("Already linked", db)
    else
      let db1 : DB := { db with
        consultations := (db.consultations.map (fun c =>
          if c.patient_id == shadow_user_id then { c with patient_id := real_user_id } else c)),
        medical_histories := (db.medical_histories.map (fun h =>
          if h.patient_id == shadow_user_id then { h with patient_id := real_user_id } else h)),
        health_logs := (db.health_logs.map (fun l =>
          if l.user_id == shadow_user_id then { l with user_id := real_user_id } else l)),
        reports := (db.reports.map (fun r =>
          if r.patient_id == shadow_user_id then { r with patient_id := real_user_id } else r)),
        links := (updateFirst (fun l => l.share_code == some share_code)
          (fun l => { l with patient_id := real_user_id, share_code := none }) db.links) }
      if !(db.users.find? (fun u => u.id == real_user_id)).isSome
          || ((db.users.find? (fun u => u.id == shadow_user_id)).isSome
              && referencesUser shadow_user_id db1) then
        .error ⟨500, "Internal Server Error"⟩
      else
        .ok ("Records linked successfully",
          { db1 with users := (removeFirst (fun u => u.id == shadow_user_id) db1.users) })

/-- DELETE `/reports/{report_id}` (main.py `delete_report`): token-only;
deletes the row by id with no ownership or link check (the requester id is
never consulted). -/
def delete_report (requester : Nat) (report_id : Nat) (db : DB) :
    Except HTTPError (String × DB) :=
  match db.reports.find? (fun r => r.id == report_id) with
  | none => .error ⟨404, "Report not found"⟩
  | some _ =>
    .ok ("Report deleted",
      { db with reports := (removeFirst (fun r => r.id == report_id) db.reports) })

/-- DELETE `/medications/{med_id}` (main.py `delete_medication`): token-only
hard delete by id, no ownership or link check. -/
def delete_medication (requester : Nat) (med_id : Nat) (db : DB) :
    Except HTTPError (String × DB) :=
  match db.medications.find? (fun m => m.id == med_id) with
  | none => .error ⟨404, "Medication not found"⟩
  | some _ =>
    .ok ("Medication deleted",
      { db with medications := (removeFirst (fun m => m.id == med_id) db.medications) })

/-- DELETE `/health-logs/{log_id}` (main.py `delete_health_log`): the route
takes no authorization header at all; deletes by id unconditionally. -/
def delete_health_log (log_id : Nat) (db : DB) :
    Except HTTPError (String × DB) :=
  match db.health_logs.find? (fun l => l.id == log_id) with
  | none => .error ⟨404, "Log not found"⟩
  | some _ =>
    .ok ("Health log deleted",
      { db with health_logs := (removeFirst (fun l => l.id == log_id) db.health_logs) })

/-- Body of PUT `/medications/{med_id}` restricted to the columns carried
by the row model. -/
structure MedicationUpdate where
  name : Option String
  active : Option Bool
deriving Repr, DecidableEq

/-- PUT `/medications/{med_id}` (main.py `update_medication`): token-only
field-wise update of the row by id, no ownership or link check. -/
def update_medication (requester : Nat) (med_id : Nat) (body : MedicationUpdate)
    (db : DB) : Except HTTPError DB :=
  match db.medications.find? (fun m => m.id == med_id) with
  | none => .error ⟨404, "Medication not found"⟩
  | some _ =>
    .ok { db with medications := (updateFirst (fun m => m.id == med_id)
      (fun m => { m with
        name := body.name.getD m.name,
        active := body.active.getD m.active }) db.medications) }

/-- Body of PUT `/diet-plans/{plan_id}` restricted to the columns carried
by the row model (`meal_type` is set unconditionally by the source). -/
structure DietPlanUpdate where
  meal_type : String
deriving Repr, DecidableEq

/-- PUT `/diet-plans/{plan_id}` (main.py `update_diet_plan`): token-only
update of the row by id, no ownership or link check. -/
def update_diet_plan (requester : Nat) (plan_id : Nat) (body : DietPlanUpdate)
    (db : DB) : Except HTTPError DB :=
  match db.diet_plans.find? (fun p => p.id == plan_id) with
  | none => .error ⟨404, "Diet plan not found"⟩
  | some _ =>
    .ok { db with diet_plans := (updateFirst (fun p => p.id == plan_id)
      (fun p => { p with meal_type := body.meal_type }) db.diet_plans) }

/-- DELETE `/diet-plans/{plan_id}` (main.py `delete_diet_plan`): token-only
hard delete by id, no ownership or link check. -/
def delete_diet_plan (requester : Nat) (plan_id : Nat) (db : DB) :
    Except HTTPError (String × DB) :=
  match db.diet_plans.find? (fun p => p.id == plan_id) with
  | none => .error ⟨404, "Diet plan not found"⟩
  | some _ =>
    .ok ("Diet plan deleted",
      { db with diet_plans := (removeFirst (fun p => p.id == plan_id) db.diet_plans) })

/-- Body of PUT `/health-logs/{log_id}` restricted to the columns carried
by the row model. -/
structure HealthLogUpdate where
  notes : Option String
deriving Repr, DecidableEq

/-- PUT `/health-logs/{log_id}` (main.py `update_health_log`): like the
health-log delete, the route takes no authorization header at all; updates
the row by id unconditionally. -/
def update_health_log (log_id : Nat) (body : HealthLogUpdate) (db : DB) :
    Except HTTPError DB :=
  match db.health_logs.find? (fun l => l.id == log_id) with
  | none => .error ⟨404, "Log not found"⟩
  | some _ =>
    .ok { db with health_logs := (updateFirst (fun l => l.id == log_id)
      (fun l => { l with notes := body.notes.getD l.notes }) db.health_logs) }

/-! ### Category-level view of the accessors -/

/-- The six owned-clinical-resource categories of the permission map. -/
inductive Category
  | health_logs
  | medications
  | reports
  | diet_plans
  | medical_history
  | consultations
deriving Repr, DecidableEq, Fintype

/-- The JSON key a category uses in a link's permission map. -/
def Category.key : Category → String
  | .health_logs => "health_logs"
  | .medications => "medications"
  | .reports => "reports"
  | .diet_plans => "diet_plans"
  | .medical_history => "medical_history"
  | .consultations => "consultations"

/-- Whether an endpoint call succeeded (did not raise an HTTP error). -/
def isOk : Except HTTPError α → Bool
  | .ok _ => true
  | .error _ => false

/-- The program's access decision for requester `q` fetching patient `p`'s
records of category `c`: whether the category's GET endpoint succeeds. -/
def fetchAllowed (c : Category) (q p : Nat) (db : DB) : Bool :=
  match c with
  | .health_logs => isOk (get_health_logs q p db)
  | .medications => isOk (get_medications q p db)
  | .reports => isOk (get_reports q p db)
  | .diet_plans => isOk (get_diet_plans p db)
  | .medical_history => isOk (get_medical_history p db)
  | .consultations => isOk (get_consultations p db)

/-- Raw lookup of a key in a nullable permission map (no defaulting):
`none` means the map is NULL, `{}`, or lacks the key. -/
def permLookup (perms : Option Permissions) (key : String) : Option Bool :=
  match perms with
  | none => none
  | some ps => ps.lookup key

/-! ### Concrete stores used as counterexamples and witnesses -/

/-- C1 store: shadow patient 1 (owning a health log, report, history and
consultation), real user 2 (owning a medication and diet plan), doctor 3,
link 10 carrying share code SHC001. The shadow owns no medication or diet
plan, so the migration's commit passes the foreign-key checks. -/
def db1 : DB :=
  ⟨[⟨1, "Jane", none, none, 30, "patient"⟩,
    ⟨2, "Jane", some "jane@x.com", some "h1", 30, "patient"⟩,
    ⟨3, "Doc", some "doc@x.com", some "h2", 40, "doctor"⟩],
   [],
   [⟨10, 3, 1, some [], some "SHC001"⟩],
   [⟨30, 1, "cramps"⟩],
   [⟨20, 2, "Iron", true⟩],
   [⟨40, 1, "scan"⟩],
   [⟨70, 2, "lunch"⟩],
   [⟨50, 1, some "pollen"⟩],
   [⟨8, 3, 1, some "Flu"⟩]⟩

/-- The C1 store after `link_records "SHC001" 2`: the shadow user is gone,
its four migrated categories now belong to user 2, the link is repointed
with its share code cleared, and the rows user 2 already owned persist. -/
def db1post : DB :=
  ⟨[⟨2, "Jane", some "jane@x.com", some "h1", 30, "patient"⟩,
    ⟨3, "Doc", some "doc@x.com", some "h2", 40, "doctor"⟩],
   [],
   [⟨10, 3, 2, some [], none⟩],
   [⟨30, 2, "cramps"⟩],
   [⟨20, 2, "Iron", true⟩],
   [⟨40, 2, "scan"⟩],
   [⟨70, 2, "lunch"⟩],
   [⟨50, 2, some "pollen"⟩],
   [⟨8, 3, 2, some "Flu"⟩]⟩

/-- C2 store: no links at all; patient 1 owns one row of each category. -/
def db2 : DB :=
  ⟨[⟨1, "P", some "p@x.com", some "h1", 30, "patient"⟩,
    ⟨2, "D", some "d@x.com", some "h2", 40, "doctor"⟩],
   [], [],
   [⟨30, 1, "cramps"⟩],
   [⟨20, 1, "Iron", true⟩],
   [⟨40, 1, "scan"⟩],
   [⟨7, 1, "lunch"⟩],
   [⟨50, 1, some "pollen"⟩],
   [⟨8, 3, 1, some "Flu"⟩]⟩

/-- C3 store: doctor 2 linked to patient 1 with permission map
`{"health_logs": false}` — every other category's key is absent
(the spec's own scenario). -/
def db3 : DB :=
  ⟨[⟨1, "P", some "p@x.com", some "h1", 30, "patient"⟩,
    ⟨2, "D", some "d@x.com", some "h2", 40, "doctor"⟩],
   [],
   [⟨5, 2, 1, some [("health_logs", false)], none⟩],
   [⟨30, 1, "cramps"⟩],
   [⟨20, 1, "Iron", true⟩],
   [⟨40, 1, "scan"⟩],
   [⟨7, 1, "lunch"⟩],
   [⟨50, 1, some "pollen"⟩],
   [⟨8, 2, 1, some "Flu"⟩]⟩

/-- C4 store: same shape as the C1 store but with only the consultation. -/
def db4 : DB :=
  ⟨[⟨1, "Jane", none, none, 30, "patient"⟩,
    ⟨2, "Jane", some "jane@x.com", some "h1", 30, "patient"⟩,
    ⟨3, "Doc", some "doc@x.com", some "h2", 40, "doctor"⟩],
   [],
   [⟨10, 3, 1, some [], some "SHC001"⟩],
   [], [], [], [], [],
   [⟨8, 3, 1, some "Flu"⟩]⟩

/-- The C4 store after `link_records "SHC001" 2`: shadow user 1 gone, link
repointed at 2 with the code cleared, consultation reassigned to 2. -/
def db4post : DB :=
  ⟨[⟨2, "Jane", some "jane@x.com", some "h1", 30, "patient"⟩,
    ⟨3, "Doc", some "doc@x.com", some "h2", 40, "doctor"⟩],
   [],
   [⟨10, 3, 2, some [], none⟩],
   [], [], [], [], [],
   [⟨8, 3, 2, some "Flu"⟩]⟩

/-- C5 store: doctor 2 linked to patient 1 (empty permission map), one row
of each category for patient 1. -/
def db5 : DB :=
  ⟨[⟨1, "P", some "p@x.com", some "h1", 30, "patient"⟩,
    ⟨2, "D", some "d@x.com", some "h2", 40, "doctor"⟩],
   [],
   [⟨5, 2, 1, some [], none⟩],
   [⟨30, 1, "cramps"⟩],
   [⟨20, 1, "Iron", true⟩],
   [⟨40, 1, "scan"⟩],
   [⟨7, 1, "lunch"⟩],
   [⟨50, 1, some "pollen"⟩],
   [⟨8, 2, 1, some "Flu"⟩]⟩

/-- C6 store: doctor 3 already linked to patient 1, who has a registered
email address. -/
def db6 : DB :=
  ⟨[⟨1, "P", some "p@x.com", some "h1", 30, "patient"⟩,
    ⟨3, "D", some "d@x.com", some "h2", 40, "doctor"⟩],
   [],
   [⟨10, 3, 1, some [], none⟩],
   [], [], [], [], [], []⟩

/-- C6 store variant: same pair as the C6 store plus a doctor profile with
invite code AB12CD for doctor 3, to exercise the invite-code path too. -/
def db6w : DB :=
  ⟨[⟨1, "P", some "p@x.com", some "h1", 30, "patient"⟩,
    ⟨3, "D", some "d@x.com", some "h2", 40, "doctor"⟩],
   [⟨60, 3, none, some "AB12CD"⟩],
   [⟨10, 3, 1, some [], none⟩],
   [], [], [], [], [], []⟩

/-- C7 store: link 10 with share code SHC001 already points at user 2. -/
def db7 : DB :=
  ⟨[⟨2, "Jane", some "jane@x.com", some "h1", 30, "patient"⟩,
    ⟨3, "Doc", some "doc@x.com", some "h2", 40, "doctor"⟩],
   [],
   [⟨10, 3, 2, some [], some "SHC001"⟩],
   [], [], [], [], [],
   [⟨8, 3, 2, some "Flu"⟩]⟩

/-- C9 store: a link whose patient is user 1; requester 7 is neither its
patient nor its doctor. -/
def db9 : DB :=
  ⟨[⟨1, "P", some "p@x.com", some "h1", 30, "patient"⟩,
    ⟨2, "D", some "d@x.com", some "h2", 40, "doctor"⟩,
    ⟨7, "Q", some "q@x.com", some "h3", 35, "patient"⟩],
   [],
   [⟨5, 2, 1, some [("health_logs", true)], none⟩],
   [], [], [], [], [], []⟩

/-- C10 store: one report, one medication, one health log and one diet
plan, all owned by patient 1; requester 9 is unrelated to them. -/
def db10 : DB :=
  ⟨[⟨1, "P", some "p@x.com", some "h1", 30, "patient"⟩,
    ⟨9, "Q", some "q@x.com", some "h3", 35, "patient"⟩],
   [], [],
   [⟨30, 1, "cramps"⟩],
   [⟨20, 1, "Iron", true⟩],
   [⟨40, 1, "scan"⟩],
   [⟨70, 1, "lunch"⟩],
   [], []⟩

/-! ### List lemmas about the store primitives -/

theorem find?_eq_none_of_countP_eq_zero {α} {p : α → Bool} {xs : List α}
    (h : xs.countP p = 0) : xs.find? p = none := by
  rw [List.find?_eq_none]
  rw [List.countP_eq_zero] at h
  exact h

theorem countP_removeFirst_eq_zero {α} {p : α → Bool} {xs : List α}
    (h : xs.countP p ≤ 1) : (removeFirst p xs).countP p = 0 := by
  induction xs with
  | nil => simp [removeFirst]
  | cons x xs ih =>
    rw [List.countP_cons] at h
    cases hx : p x with
    | true =>
      simp only [hx, if_true] at h
      simp only [removeFirst, hx, if_true]
      rw [List.countP_eq_zero]
      intro a ha hpa
      have : 0 < xs.countP p := List.countP_pos_iff.mpr ⟨a, ha, hpa⟩
      omega
    | false =>
      simp only [hx, if_false] at h
      simp [removeFirst, hx, List.countP_cons, ih h]

theorem length_removeFirst_of_countP_pos {α} {p : α → Bool} {xs : List α}
    (h : 0 < xs.countP p) : (removeFirst p xs).length + 1 = xs.length := by
  induction xs with
  | nil => simp at h
  | cons x xs ih =>
    rw [List.countP_cons] at h
    cases hx : p x with
    | true => simp [removeFirst, hx]
    | false =>
      simp only [hx, Bool.false_eq_true, if_false] at h
      simp only [removeFirst, hx, Bool.false_eq_true, if_false, List.length_cons]
      have := ih (by omega)
      omega

theorem find?_isSome_of_countP_pos {α} {p : α → Bool} {xs : List α}
    (h : 0 < xs.countP p) : ∃ a, xs.find? p = some a := by
  induction xs with
  | nil => simp at h
  | cons x xs ih =>
    rw [List.countP_cons] at h
    cases hx : p x with
    | true => exact ⟨x, by simp [List.find?, hx]⟩
    | false =>
      simp only [hx, Bool.false_eq_true, if_false] at h
      obtain ⟨a, ha⟩ := ih (by omega)
      exact ⟨a, by simp [List.find?, hx, ha]⟩

theorem find?_updateFirst_none {α} {p : α → Bool} {f : α → α} {xs : List α}
    (hone : xs.countP p ≤ 1) (hf : ∀ x, p x = true → p (f x) = false) :
    (updateFirst p f xs).find? p = none := by
  induction xs with
  | nil => simp [updateFirst]
  | cons x xs ih =>
    rw [List.countP_cons] at hone
    cases hx : p x with
    | true =>
      simp only [updateFirst, hx, if_true]
      rw [List.find?_cons_of_neg _ (by simp [hf x hx])]
      apply find?_eq_none_of_countP_eq_zero
      simp only [hx, if_true] at hone
      omega
    | false =>
      simp only [updateFirst, hx, Bool.false_eq_true, if_false]
      rw [List.find?_cons_of_neg _ (by simp [hx])]
      simp only [hx, Bool.false_eq_true, if_false] at hone
      exact ih hone

theorem mem_updateFirst_self {α} {p : α → Bool} {f : α → α} {xs : List α} {a : α}
    (h : xs.find? p = some a) : f a ∈ updateFirst p f xs := by
  induction xs with
  | nil => simp [List.find?] at h
  | cons x xs ih =>
    cases hx : p x with
    | true =>
      rw [List.find?_cons_of_pos _ hx] at h
      obtain rfl : x = a := by injection h
      simp [updateFirst, hx]
    | false =>
      rw [List.find?_cons_of_neg _ (by simp [hx])] at h
      simp only [updateFirst, hx, if_false]
      exact List.mem_cons_of_mem _ (ih h)

theorem mem_updateFirst_of_neg {α} {p : α → Bool} {f : α → α} {xs : List α} {a : α}
    (ha : a ∈ xs) (hpa : p a = false) : a ∈ updateFirst p f xs := by
  induction xs with
  | nil => simp at ha
  | cons x xs ih =>
    cases hx : p x with
    | true =>
      simp only [updateFirst, hx, if_true]
      rcases List.mem_cons.mp ha with rfl | hmem
      · rw [hx] at hpa; exact absurd hpa (by simp)
      · exact List.mem_cons_of_mem _ hmem
    | false =>
      simp only [updateFirst, hx, if_false]
      rcases List.mem_cons.mp ha with rfl | hmem
      · exact List.mem_cons_self _ _
      · exact List.mem_cons_of_mem _ (ih hmem)

theorem find?_updateFirst_found {α} {p : α → Bool} {f : α → α} {xs : List α} {a : α}
    (h : xs.find? p = some a) (hf : ∀ x, p (f x) = p x) :
    (updateFirst p f xs).find? p = some (f a) := by
  induction xs with
  | nil => simp [List.find?] at h
  | cons x xs ih =>
    cases hx : p x with
    | true =>
      rw [List.find?_cons_of_pos _ hx] at h
      obtain rfl : x = a := by injection h
      simp only [updateFirst, hx, if_true]
      rw [List.find?_cons_of_pos _ (by rw [hf]; exact hx)]
    | false =>
      rw [List.find?_cons_of_neg _ (by simp [hx])] at h
      simp only [updateFirst, hx, Bool.false_eq_true, if_false]
      rw [List.find?_cons_of_neg _ (by simp [hx])]
      exact ih h

theorem find?_pred_ext {α} {p q : α → Bool} (h : ∀ a, p a = q a) (xs : List α) :
    xs.find? p = xs.find? q := by
  have : p = q := funext h
  rw [this]

theorem updateFirst_pred_ext {α} {p q : α → Bool} {f : α → α}
    (h : ∀ a, p a = q a) (xs : List α) :
    updateFirst p f xs = updateFirst q f xs := by
  have : p = q := funext h
  rw [this]

theorem countP_migrate_src {α} (p : α → Bool) (g : α → α) (xs : List α)
    (hg : ∀ x, p x = true → p (g x) = false) :
    (xs.map (fun x => if p x then g x else x)).countP p = 0 := by
  induction xs with
  | nil => simp
  | cons x xs ih =>
    simp only [List.map_cons, List.countP_cons, ih]
    cases hx : p x with
    | true => simp [hx, hg x hx]
    | false => simp [hx]

theorem countP_migrate_dst {α} (p q : α → Bool) (g : α → α) (xs : List α)
    (hg : ∀ x, p x = true → q (g x) = true)
    (hpq : ∀ x, p x = true → q x = false) :
    (xs.map (fun x => if p x then g x else x)).countP q
      = xs.countP q + xs.countP p := by
  induction xs with
  | nil => simp
  | cons x xs ih =>
    cases hx : p x with
    | true =>
      simp [List.countP_cons, ih, hx, hg x hx, hpq x hx]
      omega
    | false =>
      simp [List.countP_cons, ih, hx]
      omega

theorem countP_eq_zero_of_any_eq_false {α} {p : α → Bool} {xs : List α}
    (h : xs.any p = false) : xs.countP p = 0 := by
  rw [List.countP_eq_zero]
  intro a ha hpa
  rw [List.any_eq_false] at h
  exact h a ha hpa

theorem length_updateFirst {α} (p : α → Bool) (f : α → α) (xs : List α) :
    (updateFirst p f xs).length = xs.length := by
  induction xs with
  | nil => rfl
  | cons x xs ih => cases hx : p x <;> simp [updateFirst, hx, ih]

theorem permGet_eq_getD (perms : Option Permissions) (key : String) (dflt : Bool) :
    permGet perms key dflt = (permLookup perms key).getD dflt := by
  cases perms with
  | none => rfl
  | some ps =>
    cases h : ps.lookup key <;> simp [permGet, permLookup, h]

theorem permGet_of_lookup_none {perms : Option Permissions} {key : String}
    (h : permLookup perms key = none) (dflt : Bool) :
    permGet perms key dflt = dflt := by
  rw [permGet_eq_getD, h]
  rfl

theorem Category.key_injective : ∀ a b : Category, a.key = b.key → a = b := by
  decide

/-! ### C8 — ownership always allows -/

/-- C8: for every user `u` and every resource category, fetching `u`'s own
records as `u` succeeds, whatever the links and permission maps in the
store: the requester-equals-owner test short-circuits the guarded
accessors, and the unguarded accessors never deny. -/
theorem C8_owner_always_allowed (db : DB) (u : Nat) :
    ∀ c : Category, fetchAllowed c u u db = true := by
  intro c
  cases c <;>
    simp [fetchAllowed, isOk, get_health_logs, get_medications, get_reports,
      get_diet_plans, get_consultations, get_medical_history]

/-! ### C7 — self-claim is a no-op success -/

/-- C7: when the link resolved by share code `X` already points at the
claiming user `R`, `link_records` answers "Already linked" and returns the
store unchanged: nothing is migrated, nobody is deleted, the link keeps its
share code and permissions. -/
theorem C7_self_claim_noop (db : DB) (X : String) (R : Nat)
    (L : DoctorPatientLink)
    (hfind : db.links.find? (fun l => l.share_code == some X) = some L)
    (hpat : L.patient_id = R) :
    link_records X R db = .ok ("Already linked", db) := by
  unfold link_records
  simp only [hfind]
  rw [if_pos hpat]

theorem C7_self_claim_noop_witness :
    link_records "SHC001" 2 db7 = .ok ("Already linked", db7) :=
  C7_self_claim_noop db7 "SHC001" 2 ⟨10, 3, 2, some [], some "SHC001"⟩ rfl rfl

/-! ### C2 — which accessors actually gate on the link -/

/-- C2 counterexample: in a store with no links at all, requester 2 fetching
patient 1's diet plans and consultations receives the data, not an
authorization error — those accessors never consult the link registry. -/
theorem C2_counterexample :
    db2.links = [] ∧
    get_diet_plans 1 db2 = .ok [⟨7, 1, "lunch"⟩] ∧
    get_consultations 1 db2 = .ok [⟨8, 3, 1, some "Flu"⟩] :=
  ⟨rfl, rfl, rfl⟩

/-- C2 amended: with no link from requester `q` to patient `p` (and
`q ≠ p`), the health-log, medication and report accessors fail with a 403
authorization error before touching data; the diet-plan, consultation and
medical-history accessors perform no link check and return data for any
token holder. -/
theorem C2_no_link_denies_only_guarded (db : DB) (q p : Nat) (hne : q ≠ p)
    (hnolink : db.links.find? (fun l =>
      l.doctor_id == q && l.patient_id == p) = none) :
    get_health_logs q p db = .error ⟨403, "Not authorized to view these logs"⟩ ∧
    get_medications q p db = .error ⟨403, "Not authorized"⟩ ∧
    get_reports q p db = .error ⟨403, "Not authorized"⟩ ∧
    (∃ xs, get_diet_plans p db = .ok xs) ∧
    (∃ xs, get_consultations p db = .ok xs) ∧
    (∃ h, get_medical_history p db = .ok h) := by
  refine ⟨?_, ?_, ?_, ⟨_, rfl⟩, ⟨_, rfl⟩, ⟨_, rfl⟩⟩
  · simp [get_health_logs, hne, hnolink]
  · simp [get_medications, hne, hnolink]
  · simp [get_reports, hne, hnolink]

theorem C2_no_link_denies_only_guarded_witness :
    get_health_logs 2 1 db2 = .error ⟨403, "Not authorized to view these logs"⟩ ∧
    get_medications 2 1 db2 = .error ⟨403, "Not authorized"⟩ ∧
    get_reports 2 1 db2 = .error ⟨403, "Not authorized"⟩ ∧
    (∃ xs, get_diet_plans 1 db2 = .ok xs) ∧
    (∃ xs, get_consultations 1 db2 = .ok xs) ∧
    (∃ h, get_medical_history 1 db2 = .ok h) :=
  C2_no_link_denies_only_guarded db2 2 1 (by decide) rfl

/-! ### C3 — absent permission key defaults to allow -/

/-- C3: for the link the store resolves between doctor `q` and patient `p`,
and for each category `c` separately: if the permission map is NULL, empty,
or merely lacks `c`'s key — whatever the map says about other categories —
then the category-`c` fetch by `q` on `p` is allowed. Absence of the key
never denies, including for the reports category (whose doubled default
test still allows), and the unguarded categories allow unconditionally. -/
theorem C3_absent_key_allows (db : DB) (q p : Nat) (L : DoctorPatientLink)
    (hne : q ≠ p)
    (hfind : db.links.find? (fun l =>
      l.doctor_id == q && l.patient_id == p) = some L) :
    ∀ c : Category, permLookup L.permissions c.key = none →
      fetchAllowed c q p db = true := by
  intro c hc
  cases c with
  | health_logs =>
    simp only [Category.key] at hc
    simp [fetchAllowed, isOk, get_health_logs, hne, hfind, permGet_of_lookup_none hc]
  | medications =>
    simp only [Category.key] at hc
    simp [fetchAllowed, isOk, get_medications, hne, hfind, permGet_of_lookup_none hc]
  | reports =>
    simp only [Category.key] at hc
    simp [fetchAllowed, isOk, get_reports, hne, hfind, permGet_of_lookup_none hc]
  | diet_plans => simp [fetchAllowed, isOk, get_diet_plans]
  | medical_history => simp [fetchAllowed, isOk, get_medical_history]
  | consultations => simp [fetchAllowed, isOk, get_consultations]

theorem C3_absent_key_allows_witness :
    fetchAllowed .medications 2 1 db3 = true ∧
    fetchAllowed .reports 2 1 db3 = true ∧
    fetchAllowed .diet_plans 2 1 db3 = true ∧
    fetchAllowed .medical_history 2 1 db3 = true ∧
    fetchAllowed .consultations 2 1 db3 = true := by
  have h := C3_absent_key_allows db3 2 1
    ⟨5, 2, 1, some [("health_logs", false)], none⟩ (by decide) rfl
  exact ⟨h .medications rfl, h .reports rfl, h .diet_plans rfl,
    h .medical_history rfl, h .consultations rfl⟩

/-! ### C5 — explicit revoke is effective only for the guarded categories -/

/-- C5 counterexample: patient 1 sets the diet_plans permission to false on
the link to doctor 2, and the update succeeds — yet fetching patient 1's
diet plans still returns the data, because `get_diet_plans` never consults
the permission map; the claimed denial for category diet_plans does not
happen. -/
theorem C5_counterexample :
    ∃ d, update_permissions_api 1 2 [("diet_plans", false)] db5
        = .ok ("Permissions updated", d) ∧
      get_diet_plans 1 d = .ok [⟨7, 1, "lunch"⟩] :=
  ⟨_, rfl, rfl⟩

/-- C5 amended: setting `permissions[C] = false` (the patient replaces the
link's map by one with `C ↦ false` and all other keys as before) makes the
fetch decision false for `C` and leaves every other category's decision
unchanged — but only for the guarded categories `health_logs`,
`medications`, `reports`; for `diet_plans`, `medical_history` and
`consultations` the accessors ignore permissions entirely, so a revoke
there has no effect (their decision is allow both before and after). -/
theorem C5_revoke_guarded_only (db : DB) (q p : Nat) (L : DoctorPatientLink)
    (c : Category) (m : Permissions)
    (hne : q ≠ p)
    (hguard : c = .health_logs ∨ c = .medications ∨ c = .reports)
    (hfind : db.links.find? (fun l =>
      l.patient_id == p && l.doctor_id == q) = some L)
    (hset : m.lookup c.key = some false)
    (hrest : ∀ k, k ≠ c.key → m.lookup k = permLookup L.permissions k) :
    ∃ db', update_permissions_api p q m db = .ok ("Permissions updated", db') ∧
      fetchAllowed c q p db' = false ∧
      ∀ c' : Category, c' ≠ c → fetchAllowed c' q p db' = fetchAllowed c' q p db := by
  have hrun : update_permissions_api p q m db = .ok ("Permissions updated",
      { db with links := (updateFirst
          (fun l => l.patient_id == p && l.doctor_id == q)
          (fun l => { l with permissions := some m }) db.links) }) := by
    unfold update_permissions_api
    simp only [hfind]
  have hEq : ∀ l : DoctorPatientLink,
      (l.patient_id == p && l.doctor_id == q)
        = (l.doctor_id == q && l.patient_id == p) :=
    fun l => Bool.and_comm _ _
  have hfindA : db.links.find? (fun l =>
      l.doctor_id == q && l.patient_id == p) = some L := by
    rw [← find?_pred_ext hEq]
    exact hfind
  have hfindA' : (updateFirst
      (fun l => l.patient_id == p && l.doctor_id == q)
      (fun l => { l with permissions := some m }) db.links).find?
      (fun l => l.doctor_id == q && l.patient_id == p)
      = some { L with permissions := some m } := by
    rw [updateFirst_pred_ext hEq]
    exact find?_updateFirst_found hfindA (fun x => rfl)
  have hperm : ∀ d, permGet (some m) c.key d = false := by
    intro d
    rw [permGet_eq_getD]
    show (m.lookup c.key).getD d = false
    rw [hset]
    rfl
  refine ⟨_, hrun, ?_, ?_⟩
  · rcases hguard with rfl | rfl | rfl
    · have hp := hperm true
      simp only [Category.key] at hp
      simp [fetchAllowed, isOk, get_health_logs, hne, hfindA', hp]
    · have hp := hperm true
      simp only [Category.key] at hp
      simp [fetchAllowed, isOk, get_medications, hne, hfindA', hp]
    · have hp1 := hperm false
      have hp2 := hperm true
      simp only [Category.key] at hp1 hp2
      simp [fetchAllowed, isOk, get_reports, hne, hfindA', hp1, hp2]
  · intro c' hc'
    have hkey : c'.key ≠ c.key := fun h => hc' (Category.key_injective _ _ h)
    have hperm' : ∀ d, permGet (some m) c'.key d = permGet L.permissions c'.key d := by
      intro d
      rw [permGet_eq_getD, permGet_eq_getD]
      show (m.lookup c'.key).getD d = _
      rw [hrest c'.key hkey]
    cases c' with
    | health_logs =>
      have hp := hperm' true
      simp only [Category.key] at hp
      cases hpg : permGet L.permissions "health_logs" true <;>
        simp [fetchAllowed, isOk, get_health_logs, hne, hfindA', hfindA, hp, hpg]
    | medications =>
      have hp := hperm' true
      simp only [Category.key] at hp
      cases hpg : permGet L.permissions "medications" true <;>
        simp [fetchAllowed, isOk, get_medications, hne, hfindA', hfindA, hp, hpg]
    | reports =>
      have hp1 := hperm' false
      have hp2 := hperm' true
      simp only [Category.key] at hp1 hp2
      cases hpg1 : permGet L.permissions "reports" false <;>
        cases hpg2 : permGet L.permissions "reports" true <;>
          simp [fetchAllowed, isOk, get_reports, hne, hfindA', hfindA, hp1, hp2, hpg1, hpg2]
    | diet_plans => rfl
    | medical_history => rfl
    | consultations => rfl

theorem C5_revoke_guarded_only_witness :
    ∃ d, update_permissions_api 1 2 [("health_logs", false)] db5
        = .ok ("Permissions updated", d) ∧
      fetchAllowed .health_logs 2 1 d = false ∧
      fetchAllowed .medications 2 1 d = fetchAllowed .medications 2 1 db5 ∧
      fetchAllowed .diet_plans 2 1 d = fetchAllowed .diet_plans 2 1 db5 := by
  obtain ⟨d, h1, h2, h3⟩ := C5_revoke_guarded_only db5 2 1 ⟨5, 2, 1, some [], none⟩
    .health_logs [("health_logs", false)] (by decide) (Or.inl rfl) rfl rfl
    (by
      intro k hk
      have hb : (k == "health_logs") = false := beq_eq_false_iff_ne.mpr hk
      simp [List.lookup, permLookup, hb])
  exact ⟨d, h1, h2, h3 .medications (by decide), h3 .diet_plans (by decide)⟩

/-! ### C4 — a spent share code no longer resolves -/

/-- C4: if `claim(X, R)` succeeded with an actual migration, a second
`claim(X, R)` fails with 404 "Invalid code": the migration cleared the
resolved link's share code to NULL, and — share codes being unique across
links (store constraint, hypothesis `hcode`) — no link resolves `X` any
more. -/
theorem C4_share_code_single_use (db : DB) (X : String) (R : Nat) (db' : DB)
    (hcode : db.links.countP (fun l => l.share_code == some X) ≤ 1)
    (h1 : link_records X R db = .ok ("Records linked successfully", db')) :
    link_records X R db' = .error ⟨404, "Invalid code"⟩ := by
  unfold link_records at h1 ⊢
  cases hfind : db.links.find? (fun l => l.share_code == some X) with
  | none =>
    rw [hfind] at h1
    exact absurd h1 (by simp)
  | some L =>
    rw [hfind] at h1
    dsimp only at h1
    by_cases hp : L.patient_id = R
    · rw [if_pos hp] at h1
      simp only [Except.ok.injEq, Prod.mk.injEq] at h1
      exact absurd h1.1 (by decide)
    · rw [if_neg hp] at h1
      split at h1
      · exact absurd h1 (by simp)
      · simp only [Except.ok.injEq, Prod.mk.injEq, true_and] at h1
        subst h1
        have hnone : (updateFirst (fun l => l.share_code == some X)
            (fun l => { l with patient_id := R, share_code := none })
            db.links).find? (fun l => l.share_code == some X) = none :=
          find?_updateFirst_none hcode (fun x _ => by simp)
        dsimp only
        rw [hnone]

theorem C4_share_code_single_use_witness :
    link_records "SHC001" 2 db4post = .error ⟨404, "Invalid code"⟩ :=
  C4_share_code_single_use db4 "SHC001" 2 db4post (by decide) (by rfl)

/-! ### C1 — migration atomicity -/

/-- C1: if a migrating `claim(X, R)` from shadow patient `S` (a user row
that exists exactly once, with share codes unique across links) commits
successfully, then no row in any of the six owned-clinical-resource
categories still carries `S`, every row `S` owned now counts toward `R`,
the user `S` is gone, and the resolved link carries `patient_id = R` with
its share code cleared (the code resolves no link any more). The four
code-migrated categories move by the bulk updates; for medications and
diet plans the successful commit itself forces that `S` owned zero rows
there — otherwise the foreign keys on the shadow-user delete would have
aborted the transaction. -/
theorem C1_migration_atomicity (db : DB) (X : String) (R S : Nat)
    (L : DoctorPatientLink) (db' : DB)
    (hfind : db.links.find? (fun l => l.share_code == some X) = some L)
    (hS : L.patient_id = S) (hne : S ≠ R)
    (hone : db.users.countP (fun u => u.id == S) = 1)
    (hcode : db.links.countP (fun l => l.share_code == some X) ≤ 1)
    (hrun : link_records X R db = .ok ("Records linked successfully", db')) :
    db'.health_logs.countP (fun l => l.user_id == S) = 0 ∧
    db'.medications.countP (fun m => m.patient_id == S) = 0 ∧
    db'.reports.countP (fun r => r.patient_id == S) = 0 ∧
    db'.diet_plans.countP (fun p => p.patient_id == S) = 0 ∧
    db'.medical_histories.countP (fun h => h.patient_id == S) = 0 ∧
    db'.consultations.countP (fun c => c.patient_id == S) = 0 ∧
    db'.health_logs.countP (fun l => l.user_id == R)
      = db.health_logs.countP (fun l => l.user_id == R)
        + db.health_logs.countP (fun l => l.user_id == S) ∧
    db'.medications.countP (fun m => m.patient_id == R)
      = db.medications.countP (fun m => m.patient_id == R)
        + db.medications.countP (fun m => m.patient_id == S) ∧
    db'.reports.countP (fun r => r.patient_id == R)
      = db.reports.countP (fun r => r.patient_id == R)
        + db.reports.countP (fun r => r.patient_id == S) ∧
    db'.diet_plans.countP (fun p => p.patient_id == R)
      = db.diet_plans.countP (fun p => p.patient_id == R)
        + db.diet_plans.countP (fun p => p.patient_id == S) ∧
    db'.medical_histories.countP (fun h => h.patient_id == R)
      = db.medical_histories.countP (fun h => h.patient_id == R)
        + db.medical_histories.countP (fun h => h.patient_id == S) ∧
    db'.consultations.countP (fun c => c.patient_id == R)
      = db.consultations.countP (fun c => c.patient_id == R)
        + db.consultations.countP (fun c => c.patient_id == S) ∧
    db'.users.countP (fun u => u.id == S) = 0 ∧
    (∃ l ∈ db'.links, l.id = L.id ∧ l.patient_id = R ∧ l.share_code = none) ∧
    db'.links.find? (fun l => l.share_code == some X) = none := by
  have hRS : (R == S) = false := beq_eq_false_iff_ne.mpr (Ne.symm hne)
  have hRR : (R == R) = true := beq_self_eq_true R
  have hSR : (S == R) = false := beq_eq_false_iff_ne.mpr hne
  obtain ⟨u0, hu0⟩ := find?_isSome_of_countP_pos
    (show 0 < db.users.countP (fun u => u.id == S) by omega)
  unfold link_records at hrun
  rw [hfind] at hrun
  dsimp only at hrun
  rw [hS, if_neg hne, hu0] at hrun
  split at hrun
  · exact absurd hrun (by simp)
  next hg =>
    rw [Bool.not_eq_true] at hg
    simp only [Bool.or_eq_false_iff, Bool.and_eq_false_iff] at hg
    obtain ⟨-, hB⟩ := hg
    rcases hB with hB | hrefs
    · exact absurd hB (by simp)
    · simp only [referencesUser] at hrefs
      simp only [Bool.or_eq_false_iff] at hrefs
      obtain ⟨⟨⟨⟨⟨⟨⟨-, -⟩, -⟩, hM⟩, -⟩, hD⟩, -⟩, -⟩ := hrefs
      have hM0 : db.medications.countP (fun m => m.patient_id == S) = 0 :=
        countP_eq_zero_of_any_eq_false hM
      have hD0 : db.diet_plans.countP (fun p => p.patient_id == S) = 0 :=
        countP_eq_zero_of_any_eq_false hD
      simp only [Except.ok.injEq, Prod.mk.injEq, true_and] at hrun
      subst hrun
      refine ⟨?_, hM0, ?_, hD0, ?_, ?_, ?_, ?_, ?_, ?_, ?_, ?_, ?_, ?_, ?_⟩
      · exact countP_migrate_src _ _ _ (fun l _ => hRS)
      · exact countP_migrate_src _ _ _ (fun r _ => hRS)
      · exact countP_migrate_src _ _ _ (fun h _ => hRS)
      · exact countP_migrate_src _ _ _ (fun c _ => hRS)
      · exact countP_migrate_dst _ _ _ _ (fun l _ => hRR)
          (fun l hc => by rw [show l.user_id = S from eq_of_beq hc]; exact hSR)
      · rw [hM0]
        rfl
      · exact countP_migrate_dst _ _ _ _ (fun r _ => hRR)
          (fun r hc => by rw [show r.patient_id = S from eq_of_beq hc]; exact hSR)
      · rw [hD0]
        rfl
      · exact countP_migrate_dst _ _ _ _ (fun h _ => hRR)
          (fun h hc => by rw [show h.patient_id = S from eq_of_beq hc]; exact hSR)
      · exact countP_migrate_dst _ _ _ _ (fun c _ => hRR)
          (fun c hc => by rw [show c.patient_id = S from eq_of_beq hc]; exact hSR)
      · exact countP_removeFirst_eq_zero (by omega)
      · exact ⟨_, mem_updateFirst_self hfind, rfl, rfl, rfl⟩
      · exact find?_updateFirst_none hcode (fun x _ => by simp)

theorem C1_migration_atomicity_witness :
    db1post.medications.countP (fun m => m.patient_id == 1) = 0 ∧
    db1post.diet_plans.countP (fun p => p.patient_id == 1) = 0 ∧
    db1post.consultations.countP (fun c => c.patient_id == 1) = 0 ∧
    db1post.users.countP (fun u => u.id == 1) = 0 ∧
    db1post.links.find? (fun l => l.share_code == some "SHC001") = none := by
  obtain ⟨h1, h2, h3, h4, h5, h6, h7, h8, h9, h10, h11, h12, h13, h14, h15⟩ :=
    C1_migration_atomicity db1 "SHC001" 2 1 ⟨10, 3, 1, some [], some "SHC001"⟩
      db1post rfl rfl (by decide) (by decide) (by decide) (by rfl)
  exact ⟨h2, h4, h6, h13, h15⟩

/-! ### C6 — pair uniqueness is not store-enforced -/

/-- C6 counterexample: doctor 3 is already linked to patient 1 (who has a
registered email); the doctor-registers-patient operation for that same
patient succeeds and inserts a second link for the pair — no AlreadyLinked
failure, because the schema has no unique constraint on
(doctor_id, patient_id) for the store to reject the insert. -/
theorem C6_counterexample :
    db6.links.countP (fun l => l.doctor_id == 3 && l.patient_id == 1) = 1 ∧
    ∃ d, register_patient_for_doctor 3 "P" (some "p@x.com") 30 99 11 "NEWCODE" db6
        = .ok (.existingLinked, d) ∧
      d.links.countP (fun l => l.doctor_id == 3 && l.patient_id == 1) = 2 := by
  refine ⟨rfl, _, rfl, ?_⟩
  decide

/-- C6 amended: pair uniqueness is enforced only in application logic and
only on the invite-code path: `link_doctor` fails with 400 "Already linked"
when a link for the (doctor, patient) pair exists; but the
doctor-registers-existing-patient path performs no such check and no store
constraint backs it (only `share_code` has a unique constraint), so it
always succeeds and increments the number of links for the pair by one. -/
theorem C6_pair_uniqueness_gap (db : DB) (p i a r fu fl : Nat)
    (c nm e cd : String) (P : DoctorProfile) (L0 : DoctorPatientLink)
    (d u : User)
    (hprof : db.doctor_profiles.find? (fun x =>
      x.invite_code == some c) = some P)
    (hL0 : db.links.find? (fun l =>
      l.doctor_id == P.user_id && l.patient_id == p) = some L0)
    (hdoc : db.users.find? (fun x =>
      x.id == r && x.role == "doctor") = some d)
    (hmail : db.users.find? (fun x => x.email == some e) = some u) :
    link_doctor p c i db = .error ⟨400, "Already linked"⟩ ∧
    ∃ db', register_patient_for_doctor r nm (some e) a fu fl cd db
        = .ok (.existingLinked, db') ∧
      db'.links.countP (fun l => l.doctor_id == d.id && l.patient_id == u.id)
        = db.links.countP (fun l =>
            l.doctor_id == d.id && l.patient_id == u.id) + 1 := by
  constructor
  · unfold link_doctor
    simp only [hprof, hL0]
  · unfold register_patient_for_doctor
    simp only [hdoc, hmail]
    refine ⟨_, rfl, ?_⟩
    simp [List.countP_append, List.countP_cons]

theorem C6_pair_uniqueness_gap_witness :
    link_doctor 1 "AB12CD" 12 db6w = .error ⟨400, "Already linked"⟩ ∧
    ∃ d, register_patient_for_doctor 3 "P" (some "p@x.com") 30 99 11 "CD" db6w
        = .ok (.existingLinked, d) ∧
      d.links.countP (fun l => l.doctor_id == 3 && l.patient_id == 1)
        = db6w.links.countP (fun l => l.doctor_id == 3 && l.patient_id == 1) + 1 :=
  C6_pair_uniqueness_gap db6w 1 12 30 3 99 11 "AB12CD" "P" "p@x.com" "CD"
    ⟨60, 3, none, some "AB12CD"⟩ ⟨10, 3, 1, some [], none⟩
    ⟨3, "D", some "d@x.com", some "h2", 40, "doctor"⟩
    ⟨1, "P", some "p@x.com", some "h1", 30, "patient"⟩
    rfl rfl rfl rfl

/-! ### C9 — only the link's patient can change its permissions -/

/-- C9: the permission-update endpoint looks a link up by the requester as
patient; for any link `L` whose patient is not the requester `q`, the call
either fails with 404 "Doctor not linked" (exactly when no link pairs `q`
with the addressed doctor) or succeeds while leaving `L` — including its
permissions map — untouched in the store: no requester other than `L`'s
patient can ever alter `L`'s permissions. -/
theorem C9_only_patient_sets_permissions (db : DB) (q d : Nat)
    (m : Permissions) (L : DoctorPatientLink)
    (hL : L ∈ db.links) (hne : L.patient_id ≠ q) :
    (db.links.find? (fun l => l.patient_id == q && l.doctor_id == d) = none →
      update_permissions_api q d m db = .error ⟨404, "Doctor not linked"⟩) ∧
    ∀ s db', update_permissions_api q d m db = .ok (s, db') → L ∈ db'.links := by
  constructor
  · intro h
    unfold update_permissions_api
    simp only [h]
  · intro s db' h
    unfold update_permissions_api at h
    cases hfind : db.links.find? (fun l =>
        l.patient_id == q && l.doctor_id == d) with
    | none =>
      rw [hfind] at h
      exact absurd h (by simp)
    | some L1 =>
      rw [hfind] at h
      simp only [Except.ok.injEq, Prod.mk.injEq] at h
      obtain ⟨-, rfl⟩ := h
      apply mem_updateFirst_of_neg hL
      have hb : (L.patient_id == q) = false := beq_eq_false_iff_ne.mpr hne
      simp [hb]

theorem C9_only_patient_sets_permissions_witness :
    (db9.links.find? (fun l => l.patient_id == 7 && l.doctor_id == 2) = none →
      update_permissions_api 7 2 [("health_logs", false)] db9
        = .error ⟨404, "Doctor not linked"⟩) ∧
    ∀ s db', update_permissions_api 7 2 [("health_logs", false)] db9
        = .ok (s, db') →
      (⟨5, 2, 1, some [("health_logs", true)], none⟩ : DoctorPatientLink)
        ∈ db'.links :=
  C9_only_patient_sets_permissions db9 7 2 [("health_logs", false)]
    ⟨5, 2, 1, some [("health_logs", true)], none⟩
    (by decide) (by decide)

/-! ### C10 — delete and update by id never check ownership -/

/-- C10: for any authenticated requester `q` — related to the rows or not —
deleting a report, a medication, a diet plan or a health log by id
succeeds and removes the row, and updating a medication, a diet plan or a
health log by id succeeds and mutates it; none of these operations reads
the requester identity or any link: only the token is checked (and the
health-log routes do not even take one). -/
theorem C10_mutations_skip_ownership (db : DB) (q rid mid lid did : Nat)
    (b : MedicationUpdate) (bd : DietPlanUpdate) (bh : HealthLogUpdate)
    (hr : db.reports.countP (fun r => r.id == rid) = 1)
    (hm : db.medications.countP (fun m => m.id == mid) = 1)
    (hl : db.health_logs.countP (fun l => l.id == lid) = 1)
    (hd : db.diet_plans.countP (fun p => p.id == did) = 1) :
    (∃ d, delete_report q rid db = .ok ("Report deleted", d) ∧
      d.reports.countP (fun r => r.id == rid) = 0 ∧
      d.reports.length + 1 = db.reports.length) ∧
    (∃ d, delete_medication q mid db = .ok ("Medication deleted", d) ∧
      d.medications.countP (fun m => m.id == mid) = 0 ∧
      d.medications.length + 1 = db.medications.length) ∧
    (∃ d, delete_health_log lid db = .ok ("Health log deleted", d) ∧
      d.health_logs.countP (fun l => l.id == lid) = 0 ∧
      d.health_logs.length + 1 = db.health_logs.length) ∧
    (∃ d, delete_diet_plan q did db = .ok ("Diet plan deleted", d) ∧
      d.diet_plans.countP (fun p => p.id == did) = 0 ∧
      d.diet_plans.length + 1 = db.diet_plans.length) ∧
    (∃ d, update_medication q mid b db = .ok d ∧
      d.medications.length = db.medications.length) ∧
    (∃ d, update_diet_plan q did bd db = .ok d ∧
      d.diet_plans.length = db.diet_plans.length) ∧
    (∃ d, update_health_log lid bh db = .ok d ∧
      d.health_logs.length = db.health_logs.length) := by
  obtain ⟨r0, hr0⟩ := find?_isSome_of_countP_pos
    (show 0 < db.reports.countP (fun r => r.id == rid) by omega)
  obtain ⟨m0, hm0⟩ := find?_isSome_of_countP_pos
    (show 0 < db.medications.countP (fun m => m.id == mid) by omega)
  obtain ⟨l0, hl0⟩ := find?_isSome_of_countP_pos
    (show 0 < db.health_logs.countP (fun l => l.id == lid) by omega)
  obtain ⟨p0, hp0⟩ := find?_isSome_of_countP_pos
    (show 0 < db.diet_plans.countP (fun p => p.id == did) by omega)
  refine ⟨⟨{ db with reports :=
        (removeFirst (fun r => r.id == rid) db.reports) }, ?_, ?_, ?_⟩,
    ⟨{ db with medications :=
        (removeFirst (fun m => m.id == mid) db.medications) }, ?_, ?_, ?_⟩,
    ⟨{ db with health_logs :=
        (removeFirst (fun l => l.id == lid) db.health_logs) }, ?_, ?_, ?_⟩,
    ⟨{ db with diet_plans :=
        (removeFirst (fun p => p.id == did) db.diet_plans) }, ?_, ?_, ?_⟩,
    ⟨{ db with medications := (updateFirst (fun m => m.id == mid)
        (fun m => { m with
          name := b.name.getD m.name,
          active := b.active.getD m.active }) db.medications) }, ?_, ?_⟩,
    ⟨{ db with diet_plans := (updateFirst (fun p => p.id == did)
        (fun p => { p with meal_type := bd.meal_type }) db.diet_plans) }, ?_, ?_⟩,
    ⟨{ db with health_logs := (updateFirst (fun l => l.id == lid)
        (fun l => { l with notes := bh.notes.getD l.notes }) db.health_logs) }, ?_, ?_⟩⟩
  · unfold delete_report
    simp only [hr0]
  · exact countP_removeFirst_eq_zero (by omega)
  · exact length_removeFirst_of_countP_pos (by omega)
  · unfold delete_medication
    simp only [hm0]
  · exact countP_removeFirst_eq_zero (by omega)
  · exact length_removeFirst_of_countP_pos (by omega)
  · unfold delete_health_log
    simp only [hl0]
  · exact countP_removeFirst_eq_zero (by omega)
  · exact length_removeFirst_of_countP_pos (by omega)
  · unfold delete_diet_plan
    simp only [hp0]
  · exact countP_removeFirst_eq_zero (by omega)
  · exact length_removeFirst_of_countP_pos (by omega)
  · unfold update_medication
    simp only [hm0]
  · exact length_updateFirst _ _ _
  · unfold update_diet_plan
    simp only [hp0]
  · exact length_updateFirst _ _ _
  · unfold update_health_log
    simp only [hl0]
  · exact length_updateFirst _ _ _

theorem C10_mutations_skip_ownership_witness :
    (∃ d, delete_report 9 40 db10 = .ok ("Report deleted", d) ∧
      d.reports.countP (fun r => r.id == 40) = 0 ∧
      d.reports.length + 1 = db10.reports.length) ∧
    (∃ d, delete_diet_plan 9 70 db10 = .ok ("Diet plan deleted", d) ∧
      d.diet_plans.countP (fun p => p.id == 70) = 0 ∧
      d.diet_plans.length + 1 = db10.diet_plans.length) ∧
    (∃ d, update_health_log 30 ⟨some "edited"⟩ db10 = .ok d ∧
      d.health_logs.length = db10.health_logs.length) := by
  obtain ⟨h1, h2, h3, h4, h5, h6, h7⟩ := C10_mutations_skip_ownership db10 9 40 20 30 70
    ⟨some "Iron2", some false⟩ ⟨"dinner"⟩ ⟨some "edited"⟩
    (by decide) (by decide) (by decide) (by decide)
  exact ⟨h1, h4, h7⟩

end HerCare
